import Mathlib

/-!
Verification of the authorization-and-identity layer of the enpkg web
application: the abstract user contract (`enpkg_interfaces/user.py`) and the
concrete session-backed implementation
(`website-configuration/website/models/core.py`).

The Flask session is modelled as a finite map from string keys to values,
the identity store as lists of rows, and each Python exception as a
constructor of the `Err` type.  Methods that mutate state return the new
state explicitly; a raised exception is an `Except.error` paired with the
state at the moment of the raise.
-/

/-- A value stored in the Flask session: the code stores integers (under
`"user_id"`) and strings (under `"lang"`). -/
inductive SVal where
  | vnat : Nat → SVal
  | vstr : String → SVal
deriving DecidableEq, Repr

instance : BEq SVal := instBEqOfDecidableEq

/-- The Flask `session`: a key-value store with string keys. -/
def Session : Type := String → Option SVal

/-- `session[k] = v` (Python item assignment). -/
def sessionSet (s : Session) (k : String) (v : SVal) : Session :=
  fun k2 => if k2 = k then some v else s k2

/-- A row of the `users` table (`alchemy_wrapper.models.User`): id plus the
role flags read by `is_administrator` / `is_moderator`. -/
structure UserRow where
  id : Nat
  is_administrator : Bool
  is_moderator : Bool
deriving DecidableEq, Repr

/-- A row of the `taxons` table (`alchemy_wrapper.models.Taxon`): id plus
the author reference consulted by the delete authorization. -/
structure TaxonRow where
  id : Nat
  author_user_id : Nat
deriving DecidableEq, Repr

/-- The identity store: user rows, the ORCID-to-user mapping table, taxon
rows, and the next serial id the database would assign. -/
structure DB where
  users : List UserRow
  orcids : List (String × Nat)
  taxons : List TaxonRow
  nextId : Nat
deriving DecidableEq, Repr

/-- Database well-formedness: serial ids are fresh and every ORCID mapping
points at an existing user row. -/
def WF (db : DB) : Prop :=
  (∀ r ∈ db.users, r.id < db.nextId) ∧
  (∀ p ∈ db.orcids, ∃ r ∈ db.users, r.id = p.2)

instance (db : DB) : Decidable (WF db) := by
  unfold WF; infer_instance

/-- The exceptions raised by the code under `website/models` and its
collaborators. `identifierNotFound` is `IdentifierNotFound` (the spec's
`NotFound`); `alreadyAuthenticated` is the `APIException("User is already
logged in.")` raise; `attributeErrorNone` is the Python `AttributeError`
produced by calling a method on `None`. -/
inductive Err where
  | notLoggedIn
  | identifierNotFound
  | unauthorized
  | alreadyAuthenticated
  | attributeErrorNone
deriving DecidableEq, Repr

namespace UsersTable

/-- Modelled from the spec: `alchemy_wrapper.models.User.from_id` is not
under `src/`; per the spec's Identity Store interface it is
`find_user_by_id(id) -> Row | NotFound`, a pure lookup. Row ids are
integers, so a non-integer identifier matches no row. -/
def from_id (db : DB) (identifier : SVal) : Except Err UserRow :=
  match identifier with
  | SVal.vnat n =>
      match db.users.find? (fun r => r.id == n) with
      | some row => Except.ok row
      | none => Except.error Err.identifierNotFound
  | _ => Except.error Err.identifierNotFound

/-- Modelled from the spec: `delete_user(id)` of the Identity Store removes
the user row with the given id. -/
def delete (db : DB) (i : Nat) : DB :=
  { db with users := db.users.filter (fun r => r.id ≠ i) }

end UsersTable

namespace TaxonTable

/-- Modelled from the spec: the Identity Store's delete-by-id for the
taxon table removes the taxon row with the given id. -/
def delete (db : DB) (i : Nat) : DB :=
  { db with taxons := db.taxons.filter (fun r => r.id ≠ i) }

end TaxonTable

namespace ORCID

/-- Modelled from the spec: `ORCID.get_or_insert_user_from_orcid` is not
under `src/`; per the spec it looks `orcid` up in the mapping table and, if
present, resolves to the existing user; if absent, it inserts a new user
row and the mapping row in one transaction and returns the new row. -/
def get_or_insert_user_from_orcid (db : DB) (orcid : String) : UserRow × DB :=
  match db.orcids.find? (fun p => p.1 == orcid) with
  | some p =>
      (((db.users.find? (fun r => r.id == p.2)).getD ⟨p.2, false, false⟩), db)
  | none =>
      let row : UserRow := ⟨db.nextId, false, false⟩
      (row, ⟨db.users ++ [row], db.orcids ++ [(orcid, row.id)], db.taxons, db.nextId + 1⟩)

end ORCID

/-- `enpkg_interfaces.sample.Sample` is not under `src/`: modelled from the
spec's Record data model as an entity carrying `author_user_id`. -/
structure Sample where
  author_user_id : Nat
deriving DecidableEq, Repr

/-- Modelled from the spec: the record accessor for `author_user_id`. -/
def Sample.get_author_user_id (self : Sample) : Nat :=
  self.author_user_id

/-- The abstract user of `enpkg_interfaces/user.py`: carries the validated
`_user_id`. -/
structure IUser where
  user_id : Nat
deriving DecidableEq, Repr

/-- `enpkg_interfaces.User.get_user_id`: return the stored user ID. -/
def IUser.get_user_id (self : IUser) : Nat :=
  self.user_id

/-- `enpkg_interfaces.User.is_author_of_sample`: the default implementation
`self.get_user_id() == sample.get_author_user_id()`. -/
def IUser.is_author_of_sample (self : IUser) (sample : Sample) : Bool :=
  self.get_user_id == sample.get_author_user_id

/-- The concrete `website.models.core.User`: wraps a row of the users
table (`self._user`). -/
structure User where
  user : UserRow
deriving DecidableEq, Repr

/-- The concrete `website.models.core.Taxon`: wraps a row of the taxon
table (`self._taxon`). -/
structure Taxon where
  taxon : TaxonRow
deriving DecidableEq, Repr

namespace User

/-- `get_id` is inherited from `emikg_interfaces.FromIdentifier`, not under
`src/`: modelled from the spec's data model, it returns the entity's stable
`user_id`. -/
def get_id (self : User) : Nat :=
  self.user.id

/-- `User.is_administrator`: delegates to the row's flag. -/
def is_administrator (self : User) : Bool :=
  self.user.is_administrator

/-- `User.is_moderator`: delegates to the row's flag. -/
def is_moderator (self : User) : Bool :=
  self.user.is_moderator

/-- `User.from_id`: `return User(UsersTable.from_id(identifier))`. -/
def from_id (db : DB) (identifier : SVal) : Except Err User :=
  match UsersTable.from_id db identifier with
  | Except.ok row => Except.ok ⟨row⟩
  | Except.error e => Except.error e

/-- `User.logout`: `session.pop("user_id", None)`. -/
def logout (s : Session) : Session :=
  fun k => if k = "user_id" then none else s k

/-- `User.is_authenticated`: `"user_id" in session`. -/
def is_authenticated (s : Session) : Bool :=
  (s "user_id").isSome

/-- `User.session_user_id`: raise `NotLoggedIn` unless authenticated, then
return `session.get("user_id")`. -/
def session_user_id (s : Session) : Except Err SVal :=
  match s "user_id" with
  | some v => Except.ok v
  | none => Except.error Err.notLoggedIn

/-- `User.from_flask_session`: try `User.from_id(User.session_user_id())`;
on `IdentifierNotFound`, call `User.logout()` and fall off the end of the
function, returning Python `None`. Other exceptions propagate. -/
def from_flask_session (db : DB) (s : Session) : Except Err (Option User) × Session :=
  match session_user_id s with
  | Except.error e => (Except.error e, s)
  | Except.ok v =>
      match from_id db v with
      | Except.ok u => (Except.ok (some u), s)
      | Except.error Err.identifierNotFound => (Except.ok none, logout s)
      | Except.error e => (Except.error e, s)

/-- `User.from_orcid`: raise `APIException` if already authenticated, else
get-or-insert the user for the ORCID, set `session["user_id"]`, and return
`User.from_id(user.id)`. -/
def from_orcid (db : DB) (s : Session) (orcid : String) :
    Except Err User × DB × Session :=
  if is_authenticated s then
    (Except.error Err.alreadyAuthenticated, db, s)
  else
    let ud := ORCID.get_or_insert_user_from_orcid db orcid
    let s2 := sessionSet s "user_id" (SVal.vnat ud.1.id)
    (from_id ud.2 (SVal.vnat ud.1.id), ud.2, s2)

/-- `User.is_session_user`: `self.get_id() == User.session_user_id()`. -/
def is_session_user (self : User) (s : Session) : Except Err Bool :=
  match session_user_id s with
  | Except.ok v => Except.ok (SVal.vnat self.get_id == v)
  | Except.error e => Except.error e

/-- `User.get_session_user_language`: `session.get("lang", "en")`. -/
def get_session_user_language (s : Session) : SVal :=
  (s "lang").getD (SVal.vstr "en")

/-- `User.must_be_administrator`: raise `Unauthorized` unless the session
user's `is_administrator()` holds. Calling the method on the `None`
returned by `from_flask_session` for a stale session is an
`AttributeError`. -/
def must_be_administrator (db : DB) (s : Session) : Except Err Unit × Session :=
  match from_flask_session db s with
  | (Except.error e, s2) => (Except.error e, s2)
  | (Except.ok none, s2) => (Except.error Err.attributeErrorNone, s2)
  | (Except.ok (some u), s2) =>
      if !u.is_administrator then (Except.error Err.unauthorized, s2)
      else (Except.ok (), s2)

/-- `User.must_be_moderator`: raise `Unauthorized` unless the session
user's `is_moderator()` holds. -/
def must_be_moderator (db : DB) (s : Session) : Except Err Unit × Session :=
  match from_flask_session db s with
  | (Except.error e, s2) => (Except.error e, s2)
  | (Except.ok none, s2) => (Except.error Err.attributeErrorNone, s2)
  | (Except.ok (some u), s2) =>
      if !u.is_moderator then (Except.error Err.unauthorized, s2)
      else (Except.ok (), s2)

/-- Modelled from the spec: `is_author_of` is provided by the abstract user
interface of `emikg_interfaces`, which is not under `src/`; per the spec it
"compares own id to `record.author_user_id`", default-implemented once in
terms of the two accessors and not overridden by the concrete `User`. -/
def is_author_of (self : User) (record : Taxon) : Bool :=
  self.get_id == record.taxon.author_user_id

/-- `User.delete`: if the record is not the session user, require an
administrator session, then delegate to the row's delete. -/
def delete (self : User) (db : DB) (s : Session) : Except Err Unit × DB × Session :=
  match is_session_user self s with
  | Except.error e => (Except.error e, db, s)
  | Except.ok b =>
      if !b then
        match must_be_administrator db s with
        | (Except.error e, s2) => (Except.error e, db, s2)
        | (Except.ok _, s2) => (Except.ok (), UsersTable.delete db self.user.id, s2)
      else
        (Except.ok (), UsersTable.delete db self.user.id, s)

end User

namespace Taxon

/-- `Taxon.delete`: resolve the session user; unless the user is an
administrator or the author of the taxon, raise `Unauthorized`; then
delegate to the row's delete. A stale session makes `from_flask_session`
return `None`, and the method calls on it raise `AttributeError`. -/
def delete (self : Taxon) (db : DB) (s : Session) : Except Err Unit × DB × Session :=
  match User.from_flask_session db s with
  | (Except.error e, s2) => (Except.error e, db, s2)
  | (Except.ok none, s2) => (Except.error Err.attributeErrorNone, db, s2)
  | (Except.ok (some u), s2) =>
      if !u.is_administrator && !(u.is_author_of self) then
        (Except.error Err.unauthorized, db, s2)
      else
        (Except.ok (), TaxonTable.delete db self.taxon.id, s2)

end Taxon

/-! ## Helper lemmas and concrete sample states -/

/-- A session holding only `"user_id" = uid`. -/
def sampleSession (uid : Nat) : Session :=
  fun k => if k = "user_id" then some (SVal.vnat uid) else none

/-- The empty session. -/
def emptySession : Session :=
  fun _ => none

/-- A sample identity store: a regular user `7`, an administrator `8`, a
moderator `6`, and a taxon authored by user `7`. -/
def sampleDB : DB :=
  ⟨[⟨6, false, true⟩, ⟨7, false, false⟩, ⟨8, true, false⟩], [], [⟨3, 7⟩], 9⟩

theorem from_flask_session_valid (db : DB) (s : Session) (uid : Nat) (r : UserRow)
    (hs : s "user_id" = some (SVal.vnat uid))
    (hr : db.users.find? (fun x => x.id == uid) = some r) :
    User.from_flask_session db s = (Except.ok (some ⟨r⟩), s) := by
  simp [User.from_flask_session, User.session_user_id, User.from_id,
    UsersTable.from_id, hs, hr]

theorem find?_eq_none_append_singleton {α : Type} (l : List α) (p : α → Bool)
    (h : l.find? p = none) (a : α) (ha : p a = true) :
    (l ++ [a]).find? p = some a := by
  rw [List.find?_append, h, Option.none_or, List.find?_cons_of_pos _ ha]

theorem users_find?_fresh (db : DB) (hwf : WF db) (row : UserRow)
    (hrow : row.id = db.nextId) :
    (db.users ++ [row]).find? (fun r => r.id == db.nextId) = some row := by
  apply find?_eq_none_append_singleton
  · rw [List.find?_eq_none]
    intro x hx
    simp only [beq_iff_eq]
    exact Nat.ne_of_lt (hwf.1 x hx)
  · simp [hrow]

/-! ## Claims -/

/-- C9: `logout` is total and idempotent: it is a total function of the
session (it never fails), afterwards the session holds no user id and
`is_authenticated` is false, and applying it twice yields the same session
state as applying it once. -/
theorem c9_logout_idempotent_total (s : Session) :
    (User.logout s) "user_id" = none ∧
    User.is_authenticated (User.logout s) = false ∧
    User.logout (User.logout s) = User.logout s := by
  refine ⟨by simp [User.logout], by simp [User.is_authenticated, User.logout], ?_⟩
  funext k
  by_cases h : k = "user_id" <;> simp [User.logout, h]

/-- C10: `logout` removes only the `"user_id"` key: every other key keeps
its value, and in particular `get_session_user_language` is unchanged. -/
theorem c10_logout_frame (s : Session) (k : String) (h : k ≠ "user_id") :
    (User.logout s) k = s k ∧
    User.get_session_user_language (User.logout s) =
      User.get_session_user_language s := by
  constructor
  · simp [User.logout, h]
  · simp [User.get_session_user_language, User.logout]

/-- Witness for C10 at the key `"lang"`. -/
theorem c10_witness :
    ("lang" : String) ≠ "user_id" ∧
    ((User.logout (sampleSession 7)) "lang" = (sampleSession 7) "lang" ∧
     User.get_session_user_language (User.logout (sampleSession 7)) =
       User.get_session_user_language (sampleSession 7)) :=
  ⟨by decide, c10_logout_frame (sampleSession 7) "lang" (by decide)⟩

/-- C2: observed behavior of `from_flask_session`. With no session user id
it fails with `NotLoggedIn`; with a stale session user id (`5` is absent
from `sampleDB`) it clears the session's user id as a side effect but then
returns Python `None` (`Except.ok none`) instead of failing with
`NotLoggedIn`, so its result is not always a valid user or a `NotLoggedIn`
failure. -/
theorem c2_from_flask_session_stale :
    (User.from_flask_session sampleDB emptySession).1 = Except.error Err.notLoggedIn ∧
    User.from_flask_session sampleDB (sampleSession 5) =
      (Except.ok none, User.logout (sampleSession 5)) ∧
    (User.logout (sampleSession 5)) "user_id" = none := by
  refine ⟨rfl, rfl, rfl⟩

/-- C5: `from_id` on a user id present in the store succeeds and the
returned entity's id equals the requested id; on an absent id it fails
with `IdentifierNotFound`; it is a pure function of the store, performing
no side effect. -/
theorem c5_from_id_lookup (db : DB) (uid : Nat) :
    ((∃ r ∈ db.users, r.id = uid) →
      ∃ u : User, User.from_id db (SVal.vnat uid) = Except.ok u ∧ u.get_id = uid) ∧
    ((∀ r ∈ db.users, r.id ≠ uid) →
      User.from_id db (SVal.vnat uid) = Except.error Err.identifierNotFound) := by
  constructor
  · rintro ⟨r, hr, hid⟩
    have hsome : (db.users.find? (fun x => x.id == uid)).isSome := by
      rw [List.find?_isSome]
      exact ⟨r, hr, by simp [hid]⟩
    obtain ⟨row, hrow⟩ := Option.isSome_iff_exists.mp hsome
    have hpid : row.id = uid := by
      have hp := List.find?_some hrow
      simpa using hp
    refine ⟨⟨row⟩, ?_, hpid⟩
    simp [User.from_id, UsersTable.from_id, hrow]
  · intro h
    have hnone : db.users.find? (fun x => x.id == uid) = none := by
      rw [List.find?_eq_none]
      intro x hx
      simp [h x hx]
    simp [User.from_id, UsersTable.from_id, hnone]

/-- Witness for C5 at user id `7` in `sampleDB`. -/
theorem c5_witness :
    (∃ r ∈ sampleDB.users, r.id = 7) ∧
    (∃ u : User, User.from_id sampleDB (SVal.vnat 7) = Except.ok u ∧ u.get_id = 7) :=
  ⟨⟨⟨7, false, false⟩, by decide, rfl⟩,
   (c5_from_id_lookup sampleDB 7).1 ⟨⟨7, false, false⟩, by decide, rfl⟩⟩

theorem ite_not_swap {α : Type} (b : Bool) (a c : α) :
    (if (!b) = true then a else c) = if b = true then c else a := by
  cases b <;> simp

theorem must_be_administrator_valid (db : DB) (s : Session) (uid : Nat) (r : UserRow)
    (hs : s "user_id" = some (SVal.vnat uid))
    (hr : db.users.find? (fun x => x.id == uid) = some r) :
    User.must_be_administrator db s =
      (if r.is_administrator then (Except.ok (), s)
       else (Except.error Err.unauthorized, s)) := by
  have hses := from_flask_session_valid db s uid r hs hr
  simp only [User.must_be_administrator, hses, User.is_administrator]
  exact ite_not_swap r.is_administrator _ _

theorem must_be_moderator_valid (db : DB) (s : Session) (uid : Nat) (r : UserRow)
    (hs : s "user_id" = some (SVal.vnat uid))
    (hr : db.users.find? (fun x => x.id == uid) = some r) :
    User.must_be_moderator db s =
      (if r.is_moderator then (Except.ok (), s)
       else (Except.error Err.unauthorized, s)) := by
  have hses := from_flask_session_valid db s uid r hs hr
  simp only [User.must_be_moderator, hses, User.is_moderator]
  exact ite_not_swap r.is_moderator _ _

/-- C8: for a session resolving to a valid user, `must_be_administrator`
succeeds exactly when the user's `is_administrator()` is true and
otherwise fails with `Unauthorized`, and `must_be_moderator` likewise with
`is_moderator()`. -/
theorem c8_role_guards (db : DB) (s : Session) (uid : Nat) (r : UserRow)
    (hs : s "user_id" = some (SVal.vnat uid))
    (hr : db.users.find? (fun x => x.id == uid) = some r) :
    User.must_be_administrator db s =
      (if r.is_administrator then (Except.ok (), s)
       else (Except.error Err.unauthorized, s)) ∧
    User.must_be_moderator db s =
      (if r.is_moderator then (Except.ok (), s)
       else (Except.error Err.unauthorized, s)) :=
  ⟨must_be_administrator_valid db s uid r hs hr,
   must_be_moderator_valid db s uid r hs hr⟩

/-- Witness for C8: user `8` of `sampleDB` is an administrator and not a
moderator. -/
theorem c8_witness :
    ((sampleSession 8) "user_id" = some (SVal.vnat 8)) ∧
    (sampleDB.users.find? (fun x => x.id == 8) = some ⟨8, true, false⟩) ∧
    (User.must_be_administrator sampleDB (sampleSession 8) =
      (if (⟨8, true, false⟩ : UserRow).is_administrator
       then (Except.ok (), sampleSession 8)
       else (Except.error Err.unauthorized, sampleSession 8)) ∧
     User.must_be_moderator sampleDB (sampleSession 8) =
      (if (⟨8, true, false⟩ : UserRow).is_moderator
       then (Except.ok (), sampleSession 8)
       else (Except.error Err.unauthorized, sampleSession 8))) :=
  ⟨rfl, rfl, c8_role_guards sampleDB (sampleSession 8) 8 ⟨8, true, false⟩ rfl rfl⟩

/-- C1: with a logged-in session whose user id resolves to row `r`,
deleting a `User` record succeeds — delegating to the users-table row
delete — exactly when the session user is the record's user (its author)
or an administrator, and otherwise fails with `Unauthorized`; deleting a
`Taxon` record succeeds — delegating to the taxon-table row delete —
exactly when the session user is the taxon's author or an administrator,
and otherwise fails with `Unauthorized`.  The same author-or-admin
predicate governs both paths. -/
theorem c1_delete_author_or_admin (db : DB) (s : Session) (uid : Nat) (r : UserRow)
    (hs : s "user_id" = some (SVal.vnat uid))
    (hr : db.users.find? (fun x => x.id == uid) = some r) :
    (∀ rec : User,
      User.delete rec db s =
        if rec.user.id = uid ∨ r.is_administrator = true
        then (Except.ok (), UsersTable.delete db rec.user.id, s)
        else (Except.error Err.unauthorized, db, s)) ∧
    (∀ t : Taxon,
      Taxon.delete t db s =
        if t.taxon.author_user_id = uid ∨ r.is_administrator = true
        then (Except.ok (), TaxonTable.delete db t.taxon.id, s)
        else (Except.error Err.unauthorized, db, s)) := by
  have hses := from_flask_session_valid db s uid r hs hr
  have hid : r.id = uid := by simpa using List.find?_some hr
  have hsid : User.session_user_id s = Except.ok (SVal.vnat uid) := by
    simp [User.session_user_id, hs]
  have hadm := must_be_administrator_valid db s uid r hs hr
  constructor
  · intro rec
    by_cases hrec : rec.user.id = uid
    · have hb : User.is_session_user rec s = Except.ok true := by
        simp [User.is_session_user, hsid, User.get_id, hrec]
      simp [User.delete, hb, hrec]
    · have hb : User.is_session_user rec s = Except.ok false := by
        simp [User.is_session_user, hsid, User.get_id, hrec]
      by_cases ha : r.is_administrator = true
      · simp [User.delete, hb, hadm, ha]
      · rw [Bool.not_eq_true] at ha
        simp [User.delete, hb, hadm, ha, hrec]
  · intro t
    by_cases hauth : t.taxon.author_user_id = uid
    · have hba : User.is_author_of ⟨r⟩ t = true := by
        simp [User.is_author_of, User.get_id, hid, hauth]
      simp [Taxon.delete, hses, hba, hauth]
    · have hba : User.is_author_of ⟨r⟩ t = false := by
        simp [User.is_author_of, User.get_id, hid]
        exact fun h => hauth h.symm
      by_cases ha : r.is_administrator = true
      · simp [Taxon.delete, hses, User.is_administrator, ha]
      · rw [Bool.not_eq_true] at ha
        simp [Taxon.delete, hses, User.is_administrator, ha, hba, hauth]

/-- Witness for C1: session user `7` of `sampleDB`. -/
theorem c1_witness :
    ((sampleSession 7) "user_id" = some (SVal.vnat 7)) ∧
    (sampleDB.users.find? (fun x => x.id == 7) = some ⟨7, false, false⟩) ∧
    ((∀ rec : User,
       User.delete rec sampleDB (sampleSession 7) =
         if rec.user.id = 7 ∨ (⟨7, false, false⟩ : UserRow).is_administrator = true
         then (Except.ok (), UsersTable.delete sampleDB rec.user.id, sampleSession 7)
         else (Except.error Err.unauthorized, sampleDB, sampleSession 7)) ∧
     (∀ t : Taxon,
       Taxon.delete t sampleDB (sampleSession 7) =
         if t.taxon.author_user_id = 7 ∨ (⟨7, false, false⟩ : UserRow).is_administrator = true
         then (Except.ok (), TaxonTable.delete sampleDB t.taxon.id, sampleSession 7)
         else (Except.error Err.unauthorized, sampleDB, sampleSession 7))) :=
  ⟨rfl, rfl, c1_delete_author_or_admin sampleDB (sampleSession 7) 7 ⟨7, false, false⟩ rfl rfl⟩

/-- C3: the user contract's author predicate `is_author_of` holds exactly
when the user's id equals the record's `author_user_id`; the source's
default implementation `is_author_of_sample` computes the same comparison;
and for a logged-in non-administrator session user the Taxon delete path
is governed by exactly this predicate: it deletes when `is_author_of`
holds and fails with `Unauthorized` otherwise. -/
theorem c3_is_author_of_governs (db : DB) (s : Session) (uid : Nat) (r : UserRow)
    (hs : s "user_id" = some (SVal.vnat uid))
    (hr : db.users.find? (fun x => x.id == uid) = some r)
    (hadm : r.is_administrator = false) :
    (∀ (u : User) (t : Taxon),
      u.is_author_of t = true ↔ u.get_id = t.taxon.author_user_id) ∧
    (∀ (iu : IUser) (sm : Sample),
      iu.is_author_of_sample sm = true ↔ iu.get_user_id = sm.get_author_user_id) ∧
    (∀ t : Taxon,
      Taxon.delete t db s =
        if User.is_author_of ⟨r⟩ t
        then (Except.ok (), TaxonTable.delete db t.taxon.id, s)
        else (Except.error Err.unauthorized, db, s)) := by
  have hses := from_flask_session_valid db s uid r hs hr
  refine ⟨?_, ?_, ?_⟩
  · intro u t
    simp [User.is_author_of]
  · intro iu sm
    simp [IUser.is_author_of_sample]
  · intro t
    simp only [Taxon.delete, hses, User.is_administrator, hadm,
      Bool.not_false, Bool.true_and]
    exact ite_not_swap (User.is_author_of ⟨r⟩ t) _ _

/-- Witness for C3: non-administrator session user `7` of `sampleDB`. -/
theorem c3_witness :
    ((sampleSession 7) "user_id" = some (SVal.vnat 7)) ∧
    (sampleDB.users.find? (fun x => x.id == 7) = some ⟨7, false, false⟩) ∧
    ((⟨7, false, false⟩ : UserRow).is_administrator = false) ∧
    ((∀ (u : User) (t : Taxon),
       u.is_author_of t = true ↔ u.get_id = t.taxon.author_user_id) ∧
     (∀ (iu : IUser) (sm : Sample),
       iu.is_author_of_sample sm = true ↔ iu.get_user_id = sm.get_author_user_id) ∧
     (∀ t : Taxon,
       Taxon.delete t sampleDB (sampleSession 7) =
         if User.is_author_of ⟨⟨7, false, false⟩⟩ t
         then (Except.ok (), TaxonTable.delete sampleDB t.taxon.id, sampleSession 7)
         else (Except.error Err.unauthorized, sampleDB, sampleSession 7))) :=
  ⟨rfl, rfl, rfl,
   c3_is_author_of_governs sampleDB (sampleSession 7) 7 ⟨7, false, false⟩ rfl rfl rfl⟩

/-- C4: `from_orcid` fails with the already-logged-in failure whenever the
session already holds a user id, leaving the store and the session
unchanged; and whenever it succeeds, the resulting session is the input
session with the returned user's id stored under `"user_id"`, so the
stored id equals the returned entity's id. -/
theorem c4_from_orcid_session (db : DB) (s : Session) (x : String) :
    (User.is_authenticated s = true →
      User.from_orcid db s x = (Except.error Err.alreadyAuthenticated, db, s)) ∧
    (∀ (u : User) (db2 : DB) (s2 : Session),
      User.from_orcid db s x = (Except.ok u, db2, s2) →
        s2 = sessionSet s "user_id" (SVal.vnat u.get_id) ∧
        s2 "user_id" = some (SVal.vnat u.get_id)) := by
  constructor
  · intro h
    simp [User.from_orcid, h]
  · intro u db2 s2 heq
    by_cases h : User.is_authenticated s = true
    · simp [User.from_orcid, h] at heq
    · rw [Bool.not_eq_true] at h
      simp only [User.from_orcid, h, Bool.false_eq_true, if_false, Prod.mk.injEq] at heq
      obtain ⟨h1, _, h3⟩ := heq
      rcases hf : (ORCID.get_or_insert_user_from_orcid db x).2.users.find?
          (fun r => r.id == (ORCID.get_or_insert_user_from_orcid db x).1.id) with _ | row
      · simp [User.from_id, UsersTable.from_id, hf] at h1
      · simp only [User.from_id, UsersTable.from_id, hf, Except.ok.injEq] at h1
        have hrow : row.id = (ORCID.get_or_insert_user_from_orcid db x).1.id := by
          simpa using List.find?_some hf
        subst h1
        constructor
        · rw [← h3, User.get_id, hrow]
        · rw [← h3, User.get_id, hrow]
          simp [sessionSet]

/-- Witness for C4: an authenticated session makes `from_orcid` fail with
the already-logged-in failure and leaves store and session unchanged. -/
theorem c4_witness :
    (User.is_authenticated (sampleSession 7) = true) ∧
    (User.from_orcid sampleDB (sampleSession 7) "0000-0002-1825-0097" =
      (Except.error Err.alreadyAuthenticated, sampleDB, sampleSession 7)) :=
  ⟨rfl,
   (c4_from_orcid_session sampleDB (sampleSession 7) "0000-0002-1825-0097").1 rfl⟩

/-- C6 counterexample: from an empty store and an empty session, the first
`from_orcid "A"` succeeds and creates user `1`, but the second sequential
call in the same calling context does not succeed: it fails with the
already-logged-in failure, because the first call stored the user id in
the session. -/
theorem c6_counterexample :
    (User.from_orcid ⟨[], [], [], 1⟩ emptySession "A").1 =
      Except.ok ⟨⟨1, false, false⟩⟩ ∧
    (User.from_orcid (User.from_orcid ⟨[], [], [], 1⟩ emptySession "A").2.1
        (User.from_orcid ⟨[], [], [], 1⟩ emptySession "A").2.2 "A").1 =
      Except.error Err.alreadyAuthenticated :=
  ⟨rfl, rfl⟩

/-- C6 amended: for a never-seen ORCID called from an unauthenticated
context over a well-formed store, the first call succeeds and creates the
user; a second sequential call in the same calling context fails with the
already-logged-in failure, since the first call authenticated the session;
and if the session's user id is cleared (`logout`) between the calls, the
second call succeeds by plain lookup and returns the same user id. -/
theorem c6_amended_repeat_lookup (db : DB) (s : Session) (x : String)
    (hwf : WF db)
    (hauth : User.is_authenticated s = false)
    (hnew : db.orcids.find? (fun p => p.1 == x) = none) :
    ∃ u1 : User,
      (User.from_orcid db s x).1 = Except.ok u1 ∧
      (User.from_orcid (User.from_orcid db s x).2.1
          (User.from_orcid db s x).2.2 x).1 =
        Except.error Err.alreadyAuthenticated ∧
      ∃ u2 : User,
        (User.from_orcid (User.from_orcid db s x).2.1
            (User.logout (User.from_orcid db s x).2.2) x).1 = Except.ok u2 ∧
        u2.get_id = u1.get_id := by
  have hgo : ORCID.get_or_insert_user_from_orcid db x =
      (⟨db.nextId, false, false⟩,
       ⟨db.users ++ [⟨db.nextId, false, false⟩],
        db.orcids ++ [(x, db.nextId)], db.taxons, db.nextId + 1⟩) := by
    simp [ORCID.get_or_insert_user_from_orcid, hnew]
  have hfind := users_find?_fresh db hwf ⟨db.nextId, false, false⟩ rfl
  have h1 : User.from_orcid db s x =
      (Except.ok ⟨⟨db.nextId, false, false⟩⟩,
       ⟨db.users ++ [⟨db.nextId, false, false⟩],
        db.orcids ++ [(x, db.nextId)], db.taxons, db.nextId + 1⟩,
       sessionSet s "user_id" (SVal.vnat db.nextId)) := by
    simp [User.from_orcid, hauth, hgo, User.from_id, UsersTable.from_id, hfind]
  have horc : (db.orcids ++ [(x, db.nextId)]).find? (fun p => p.1 == x) =
      some (x, db.nextId) :=
    find?_eq_none_append_singleton _ _ hnew _ (by simp)
  refine ⟨⟨⟨db.nextId, false, false⟩⟩, by rw [h1], ?_, ⟨⟨db.nextId, false, false⟩⟩, ?_, rfl⟩
  · rw [h1]
    simp [User.from_orcid, User.is_authenticated, sessionSet]
  · rw [h1]
    have hauth2 : User.is_authenticated
        (User.logout (sessionSet s "user_id" (SVal.vnat db.nextId))) = false := by
      simp [User.is_authenticated, User.logout]
    simp [User.from_orcid, hauth2, ORCID.get_or_insert_user_from_orcid, horc,
      hfind, User.from_id, UsersTable.from_id]

/-- Witness for C6 (amended) at the empty store, the empty session, and
the never-seen ORCID `"B"`. -/
theorem c6_witness :
    WF ⟨[], [], [], 1⟩ ∧
    User.is_authenticated emptySession = false ∧
    ((⟨[], [], [], 1⟩ : DB).orcids.find? (fun p => p.1 == "B") = none) ∧
    (∃ u1 : User,
      (User.from_orcid ⟨[], [], [], 1⟩ emptySession "B").1 = Except.ok u1 ∧
      (User.from_orcid (User.from_orcid ⟨[], [], [], 1⟩ emptySession "B").2.1
          (User.from_orcid ⟨[], [], [], 1⟩ emptySession "B").2.2 "B").1 =
        Except.error Err.alreadyAuthenticated ∧
      ∃ u2 : User,
        (User.from_orcid (User.from_orcid ⟨[], [], [], 1⟩ emptySession "B").2.1
            (User.logout (User.from_orcid ⟨[], [], [], 1⟩ emptySession "B").2.2) "B").1 =
          Except.ok u2 ∧
        u2.get_id = u1.get_id) :=
  ⟨by decide, rfl, rfl,
   c6_amended_repeat_lookup ⟨[], [], [], 1⟩ emptySession "B" (by decide) rfl rfl⟩
